import Mathlib

set_option maxHeartbeats 1000000

/-! Shallow embedding of the BlueZ HAL core (`src/ble_hal.c`).

C strings are modelled as Lean strings (one `Char` per byte); `strncpy` into a
fixed buffer of size `n` is modelled by truncation to the first `n - 1`
characters, which also models the guaranteed NUL terminator.  A possibly-NULL
C string is `Option String`.  The static globals of `ble_hal.c` form the
`HalState` record.  External bus effects (signal (un)subscription, method
calls, result-callback invocations, application events, registry clears) are
recorded in an ordered trace of `Action`s; environment responses (bus
connection success, watch and subscription identifiers, signal payloads,
enumeration replies) are explicit parameters of the handlers. -/

namespace BleHal

/-- A D-Bus variant value as seen by the decoder: it only distinguishes
strings, booleans, and anything else (`g_variant_is_of_type` checks). -/
inductive Variant where
  | str (v : String)
  | boolean (b : Bool)
  | other
deriving DecidableEq

/-- `BleHalStatus` from `include/ble_hal.h`. -/
inductive BleHalStatus where
  | success
  | error
  | error_dbus
  | error_not_initialized
  | error_invalid_params
  | pending
deriving DecidableEq

/-- `strncpy(dst, src, n - 1)` into a zeroed buffer of size `n`: keep the
first `n - 1` characters; the final byte is always NUL. -/
def truncStr (n : Nat) (s : String) : String :=
  String.mk (s.data.take n)

/-- `BleHalAdapterInfo` from `include/ble_hal.h`: `path[256]`, `address[18]`,
`name[249]`, `gboolean powered`. -/
structure BleHalAdapterInfo where
  path : String
  address : String
  name : String
  powered : Bool
deriving DecidableEq

/-- A zeroed `BleHalAdapterInfo` (the result of `memset(..., 0, ...)` or of a
`{0}` initializer). -/
def emptyAdapterInfo : BleHalAdapterInfo :=
  { path := "", address := "", name := "", powered := false }

/-- `BleHalConfig`: the global event callback (modelled by whether one is
registered) and its opaque user-data pointer (modelled as a number). -/
structure BleHalConfig where
  global_event_cb : Bool
  global_event_user_data : Nat
deriving DecidableEq

/-- The zeroed configuration (initial value of the static global, and the
value after `memset` in `ble_hal_deinit`). -/
def zeroConfig : BleHalConfig :=
  { global_event_cb := false, global_event_user_data := 0 }

/-- The static globals of `ble_hal.c`.  Pointer-valued globals
(`dbus_conn`, the two loop pointers) are modelled by whether they are
non-NULL. -/
structure HalState where
  dbus_conn : Bool
  app_provided_loop : Bool
  internal_loop : Bool
  bluez_name_watch_id : Nat
  object_manager_signal_watch_id : Nat
  active_adapter : BleHalAdapterInfo
  active_adapter_found : Bool
  hal_global_config : BleHalConfig
  hal_initialized : Bool
deriving DecidableEq

/-- The state of the static globals at program start (all zero / NULL). -/
def initialHalState : HalState :=
  { dbus_conn := false
    app_provided_loop := false
    internal_loop := false
    bluez_name_watch_id := 0
    object_manager_signal_watch_id := 0
    active_adapter := emptyAdapterInfo
    active_adapter_found := false
    hal_global_config := zeroConfig
    hal_initialized := false }

/-- Observable external effects, recorded in program order. -/
inductive Action where
  | unsubscribeSignals (id : Nat)
  | subscribeSignals
  | clearRegistry
  | busCallGetManagedObjects
  | busCallSetProperty (object_path : String) (iface prop : String) (value : Bool)
  | invokeCallback (status : BleHalStatus) (user_data : Nat)
  | raiseEvent (service_up : Bool) (user_data : Nat)
deriving DecidableEq

/-- `ble_hal_set_adapter_power` (lines 453-496): synchronous checks, then an
asynchronous `org.freedesktop.DBus.Properties.Set` call.  The function never
mutates the globals; it returns the status and its effect trace.  `cb` records
whether a result callback was supplied, `user_data` its opaque context. -/
def ble_hal_set_adapter_power (adapter_path : Option String) (power_on : Bool)
    (cb : Bool) (user_data : Nat) (s : HalState) : BleHalStatus × List Action :=
  if s.hal_initialized = false ∨ s.dbus_conn = false then
    (.error_not_initialized,
      if cb then [Action.invokeCallback .error_not_initialized user_data] else [])
  else
    match adapter_path with
    | none =>
        (.error_invalid_params,
          if cb then [Action.invokeCallback .error_invalid_params user_data] else [])
    | some path =>
        (.pending, [Action.busCallSetProperty path "org.bluez.Adapter1" "Powered" power_on])

/-- One step of the property loop in `process_adapter_interface`
(lines 227-237): recognise `Address`/`Name` strings and the `Powered`
boolean, ignore everything else. -/
def applyAdapterProp (info : BleHalAdapterInfo) (prop_name : String)
    (prop_value : Variant) : BleHalAdapterInfo :=
  match prop_name, prop_value with
  | "Address", .str v => { info with address := truncStr 17 v }
  | "Name", .str v => { info with name := truncStr 248 v }
  | "Powered", .boolean b => { info with powered := b }
  | _, _ => info

/-- The property iteration of `process_adapter_interface`. -/
def decodeAdapterProps (info : BleHalAdapterInfo)
    (properties : List (String × Variant)) : BleHalAdapterInfo :=
  properties.foldl (fun i p => applyAdapterProp i p.1 p.2) info

/-- `process_adapter_interface` (lines 210-260): reject if an adapter is
already active; otherwise decode the record, store it iff the decoded address
is non-empty, and if the stored adapter is unpowered issue a power-on request
through `ble_hal_set_adapter_power` (with `generic_result_cb` as callback). -/
def process_adapter_interface (object_path : String)
    (properties : List (String × Variant)) (s : HalState) :
    HalState × List Action :=
  if s.active_adapter_found = true then
    (s, [])
  else
    let new_adapter_info :=
      decodeAdapterProps { emptyAdapterInfo with path := truncStr 255 object_path } properties
    if new_adapter_info.address.length > 0 then
      let s1 := { s with active_adapter := new_adapter_info, active_adapter_found := true }
      if s1.active_adapter_found = true ∧ new_adapter_info.powered = false then
        (s1, (ble_hal_set_adapter_power (some s1.active_adapter.path) true true 0 s1).2)
      else
        (s1, [])
    else
      (s, [])

/-- The interface loop of the `InterfacesAdded` branch of
`on_object_manager_signal` (lines 82-93): for each entry of the
interface-to-properties dictionary, process `org.bluez.Adapter1` entries when
no adapter is active yet; skip everything else. -/
def processAddedInterfaces (object_path : String) :
    List (String × List (String × Variant)) → HalState → HalState × List Action
  | [], s => (s, [])
  | (interface_name, properties) :: rest, s =>
      let step :=
        if interface_name = "org.bluez.Adapter1" then
          if s.active_adapter_found = false then
            process_adapter_interface object_path properties s
          else
            (s, [])
        else
          (s, [])
      let next := processAddedInterfaces object_path rest step.1
      (next.1, step.2 ++ next.2)

/-- The removed-interface scan of the `InterfacesRemoved` branch
(lines 104-118): clear the registry iff `org.bluez.Adapter1` is among the
removed interface names. -/
def processRemovedInterfaces (s : HalState) :
    List String → HalState × List Action
  | [] => (s, [])
  | removed_interface_name :: rest =>
      if removed_interface_name = "org.bluez.Adapter1" then
        ({ s with active_adapter_found := false, active_adapter := emptyAdapterInfo },
          [Action.clearRegistry])
      else
        processRemovedInterfaces s rest

/-- The decoded parameters of an ObjectManager signal, dispatched on the
signal name. -/
inductive SignalParams where
  | interfacesAdded (object_path : String)
      (interfaces_and_properties : List (String × List (String × Variant)))
  | interfacesRemoved (object_path : String) (interfaces : List String)
deriving DecidableEq

/-- `on_object_manager_signal` (lines 58-121): ignore non-`org.bluez`
senders; dispatch `InterfacesAdded` to the interface loop; on
`InterfacesRemoved`, clear the registry when the removed object is the active
adapter and `org.bluez.Adapter1` is among the removed interfaces. -/
def on_object_manager_signal (sender_name : String) (params : SignalParams)
    (s : HalState) : HalState × List Action :=
  if sender_name = "org.bluez" then
    match params with
    | .interfacesAdded object_path ifaces =>
        processAddedInterfaces object_path ifaces s
    | .interfacesRemoved object_path removed =>
        if s.active_adapter_found = true ∧ object_path = s.active_adapter.path then
          processRemovedInterfaces s removed
        else
          (s, [])
  else
    (s, [])

/-- The inner interface loop of `on_get_managed_objects_reply`
(lines 288-297): process `org.bluez.Adapter1` entries when no adapter is
active yet. -/
def processEnumIfaces (object_path : String) :
    List (String × List (String × Variant)) → HalState → HalState × List Action
  | [], s => (s, [])
  | (iface_name, props_dict) :: rest, s =>
      let step :=
        if iface_name = "org.bluez.Adapter1" then
          if s.active_adapter_found = false then
            process_adapter_interface object_path props_dict s
          else
            (s, [])
        else
          (s, [])
      let next := processEnumIfaces object_path rest step.1
      (next.1, step.2 ++ next.2)

/-- The outer object loop of `on_get_managed_objects_reply`
(lines 281-299). -/
def processManagedObjects :
    List (String × List (String × List (String × Variant))) → HalState →
      HalState × List Action
  | [], s => (s, [])
  | (object_path, ifaces_and_props_dict) :: rest, s =>
      let step := processEnumIfaces object_path ifaces_and_props_dict s
      let next := processManagedObjects rest step.1
      (next.1, step.2 ++ next.2)

/-- `on_get_managed_objects_reply` (lines 265-307): a call error leaves
everything unchanged; otherwise iterate all objects and interfaces. -/
def on_get_managed_objects_reply
    (result : Option (List (String × List (String × List (String × Variant)))))
    (s : HalState) : HalState × List Action :=
  match result with
  | none => (s, [])
  | some objects => processManagedObjects objects s

/-- `initial_object_scan` (lines 312-328): issue `GetManagedObjects` when a
connection is present. -/
def initial_object_scan (s : HalState) : HalState × List Action :=
  if s.dbus_conn = false then
    (s, [])
  else
    (s, [Action.busCallGetManagedObjects])

/-- `on_bluez_appeared` (lines 126-176).  `new_watch_id` is the identifier the
environment returns from `g_dbus_connection_signal_subscribe` (0 on failure).
In order: defensively release a held subscription, clear the registry
unconditionally, subscribe (when connected), enumerate only on successful
subscription, then raise `BLE_HAL_EVENT_BLUEZ_SERVICE_UP`. -/
def on_bluez_appeared (new_watch_id : Nat) (s : HalState) :
    HalState × List Action :=
  let step1 : HalState × List Action :=
    if s.object_manager_signal_watch_id > 0 then
      if s.dbus_conn = true then
        ({ s with object_manager_signal_watch_id := 0 },
          [Action.unsubscribeSignals s.object_manager_signal_watch_id])
      else
        ({ s with object_manager_signal_watch_id := 0 }, [])
    else
      (s, [])
  let s2 := { step1.1 with active_adapter_found := false, active_adapter := emptyAdapterInfo }
  let acts2 := step1.2 ++ [Action.clearRegistry]
  let step3 : HalState × List Action :=
    if s2.dbus_conn = true then
      let s3 := { s2 with object_manager_signal_watch_id := new_watch_id }
      if new_watch_id = 0 then
        (s3, [Action.subscribeSignals])
      else
        (s3, [Action.subscribeSignals] ++ (initial_object_scan s3).2)
    else
      (s2, [])
  let acts4 :=
    if step3.1.hal_global_config.global_event_cb then
      [Action.raiseEvent true step3.1.hal_global_config.global_event_user_data]
    else
      []
  (step3.1, acts2 ++ step3.2 ++ acts4)

/-- `on_bluez_vanished` (lines 181-205): release the subscription if held,
clear the active adapter if present, raise
`BLE_HAL_EVENT_BLUEZ_SERVICE_DOWN`. -/
def on_bluez_vanished (s : HalState) : HalState × List Action :=
  let step1 : HalState × List Action :=
    if s.object_manager_signal_watch_id > 0 ∧ s.dbus_conn = true then
      ({ s with object_manager_signal_watch_id := 0 },
        [Action.unsubscribeSignals s.object_manager_signal_watch_id])
    else
      (s, [])
  let step2 : HalState × List Action :=
    if step1.1.active_adapter_found = true then
      ({ step1.1 with active_adapter_found := false, active_adapter := emptyAdapterInfo },
        [Action.clearRegistry])
    else
      (step1.1, [])
  let acts3 :=
    if step2.1.hal_global_config.global_event_cb then
      [Action.raiseEvent false step2.1.hal_global_config.global_event_user_data]
    else
      []
  (step2.1, step1.2 ++ step2.2 ++ acts3)

/-- The environment's responses during `ble_hal_init`: whether
`g_bus_get_sync` succeeds, and the identifier returned by
`g_bus_watch_name` (0 on failure). -/
structure InitEnv where
  bus_ok : Bool
  name_watch_id : Nat
deriving DecidableEq

/-- `ble_hal_init` (lines 332-389).  `config = none` models a NULL config
pointer; `loop` models a non-NULL app-provided `GMainLoop*`.  The result of
`g_bus_watch_name` is written to `bluez_name_watch_id` unconditionally (line
369) before the failure check, so a failed watch setup leaves the global at
0. -/
def ble_hal_init (config : Option BleHalConfig) (loop : Bool) (env : InitEnv)
    (s : HalState) : BleHalStatus × HalState :=
  if s.hal_initialized = true then
    (.success, s)
  else
    match config with
    | none => (.error_invalid_params, s)
    | some cfg =>
        let s1 := { s with hal_global_config := cfg }
        if env.bus_ok = false then
          (.error_dbus, { s1 with dbus_conn := false })
        else
          let s2 := { s1 with dbus_conn := true }
          let s3 :=
            if loop then { s2 with app_provided_loop := true }
            else { s2 with internal_loop := true }
          let s4 := { s3 with bluez_name_watch_id := env.name_watch_id }
          if env.name_watch_id = 0 then
            (.error_dbus, { s4 with dbus_conn := false, internal_loop := false })
          else
            (.success, { s4 with hal_initialized := true })

/-- `ble_hal_deinit` (lines 391-424): stop the name watch, drop the
connection, drop the loops, zero the configuration, mark uninitialized. -/
def ble_hal_deinit (s : HalState) : HalState :=
  if s.hal_initialized = false then
    s
  else
    { s with
      bluez_name_watch_id := 0
      dbus_conn := false
      internal_loop := false
      app_provided_loop := false
      hal_global_config := zeroConfig
      hal_initialized := false }

/-- Deliveries that can reach the discovery path after subscription: an
ObjectManager signal or the `GetManagedObjects` reply. -/
inductive BusEvent where
  | signal (sender_name : String) (params : SignalParams)
  | enumReply (result : Option (List (String × List (String × List (String × Variant)))))

/-- Dispatch one bus delivery to its handler. -/
def handleBusEvent (e : BusEvent) (s : HalState) : HalState × List Action :=
  match e with
  | .signal sender params => on_object_manager_signal sender params s
  | .enumReply result => on_get_managed_objects_reply result s

/-- Process a sequence of bus deliveries in order, concatenating traces. -/
def runEvents : List BusEvent → HalState → HalState × List Action
  | [], s => (s, [])
  | e :: rest, s =>
      let step := handleBusEvent e s
      let next := runEvents rest step.1
      (next.1, step.2 ++ next.2)

/-- A delivery that can only add adapters: an `InterfacesAdded` signal or an
enumeration reply (never an `InterfacesRemoved` signal). -/
def isAddDelivery : BusEvent → Bool
  | .signal _ (.interfacesAdded _ _) => true
  | .signal _ (.interfacesRemoved _ _) => false
  | .enumReply _ => true

/-! Helper lemmas. -/

theorem length_pos_ne_empty (s : String) (h : 0 < s.length) : s ≠ "" := by
  intro hEq
  rw [hEq] at h
  exact absurd h (by decide)

theorem truncStr_length_le (n : Nat) (s : String) : (truncStr n s).length ≤ n := by
  show (s.data.take n).length ≤ n
  rw [List.length_take]
  exact Nat.min_le_left _ _

theorem process_adapter_interface_of_found (object_path : String)
    (properties : List (String × Variant)) (s : HalState)
    (h : s.active_adapter_found = true) :
    process_adapter_interface object_path properties s = (s, []) := by
  simp [process_adapter_interface, h]

theorem processAddedInterfaces_of_found (object_path : String)
    (ifaces : List (String × List (String × Variant))) (s : HalState)
    (h : s.active_adapter_found = true) :
    processAddedInterfaces object_path ifaces s = (s, []) := by
  induction ifaces with
  | nil => simp [processAddedInterfaces]
  | cons hd tl ih =>
      obtain ⟨iname, props⟩ := hd
      simp [processAddedInterfaces, h, ih]

theorem processEnumIfaces_of_found (object_path : String)
    (ifaces : List (String × List (String × Variant))) (s : HalState)
    (h : s.active_adapter_found = true) :
    processEnumIfaces object_path ifaces s = (s, []) := by
  induction ifaces with
  | nil => simp [processEnumIfaces]
  | cons hd tl ih =>
      obtain ⟨iname, props⟩ := hd
      simp [processEnumIfaces, h, ih]

theorem processManagedObjects_of_found
    (objects : List (String × List (String × List (String × Variant))))
    (s : HalState) (h : s.active_adapter_found = true) :
    processManagedObjects objects s = (s, []) := by
  induction objects with
  | nil => simp [processManagedObjects]
  | cons hd tl ih =>
      obtain ⟨opath, ifaces⟩ := hd
      simp [processManagedObjects, processEnumIfaces_of_found opath ifaces s h, ih]

theorem handleBusEvent_add_of_found (e : BusEvent) (s : HalState)
    (hfound : s.active_adapter_found = true) (hadd : isAddDelivery e = true) :
    handleBusEvent e s = (s, []) := by
  cases e with
  | signal sender params =>
      cases params with
      | interfacesAdded opath ifaces =>
          show on_object_manager_signal sender (.interfacesAdded opath ifaces) s = (s, [])
          rw [on_object_manager_signal]
          split
          · exact processAddedInterfaces_of_found opath ifaces s hfound
          · rfl
      | interfacesRemoved opath removed => exact absurd hadd (by simp [isAddDelivery])
  | enumReply result =>
      cases result with
      | none => rfl
      | some objects =>
          show on_get_managed_objects_reply (some objects) s = (s, [])
          rw [on_get_managed_objects_reply]
          exact processManagedObjects_of_found objects s hfound

/-! Concrete fixtures used by witnesses and counterexamples. -/

/-- A registered adapter record, as the registry would hold it. -/
def adapterA : BleHalAdapterInfo :=
  { path := "/org/bluez/hci0", address := "AA:BB:CC:DD:EE:FF", name := "hci0", powered := true }

/-- A fully initialized state holding `adapterA` as the active adapter. -/
def sActive : HalState :=
  { dbus_conn := true
    app_provided_loop := true
    internal_loop := false
    bluez_name_watch_id := 1
    object_manager_signal_watch_id := 2
    active_adapter := adapterA
    active_adapter_found := true
    hal_global_config := { global_event_cb := true, global_event_user_data := 5 }
    hal_initialized := true }

/-- A fully initialized, subscribed state with an empty registry. -/
def sReady : HalState :=
  { sActive with active_adapter := emptyAdapterInfo, active_adapter_found := false }

/-- A qualifying `InterfacesAdded` payload for a second, distinct adapter. -/
def addedHci1 : BusEvent :=
  .signal "org.bluez"
    (.interfacesAdded "/org/bluez/hci1"
      [("org.bluez.Adapter1",
        [("Address", .str "11:22:33:44:55:66"), ("Powered", .boolean false)])])

/-- An enumeration reply listing the same second adapter. -/
def enumHci1 : BusEvent :=
  .enumReply (some
    [("/org/bluez/hci1",
      [("org.bluez.Adapter1",
        [("Address", .str "11:22:33:44:55:66"), ("Powered", .boolean false)])])])

/-! Claim theorems. -/

/-- C1: the registry is a single slot (`active_adapter`/`active_adapter_found`),
so it holds at most one active adapter; and while one is active, any sequence
of add deliveries — `InterfacesAdded` signals or enumeration replies, in any
order — leaves the state (in particular the active adapter) unchanged and
performs no external action: a second qualifying adapter is rejected and never
replaces the active one. -/
theorem C1_first_wins (s : HalState) (events : List BusEvent)
    (hfound : s.active_adapter_found = true)
    (hadd : ∀ e ∈ events, isAddDelivery e = true) :
    runEvents events s = (s, []) := by
  induction events with
  | nil => rfl
  | cons e rest ih =>
      have hstep : handleBusEvent e s = (s, []) :=
        handleBusEvent_add_of_found e s hfound (hadd e (by simp))
      simp [runEvents, hstep]
      exact ih fun e' he' => hadd e' (by simp [he'])

/-- Witness for C1: with `adapterA` active, delivering a second qualifying
adapter both by signal and by enumeration reply leaves the registry holding
`adapterA`. -/
theorem C1_first_wins_witness :
    runEvents [addedHci1, enumHci1] sActive = (sActive, []) :=
  C1_first_wins sActive [addedHci1, enumHci1] (by decide)
    (by intro e he; fin_cases he <;> rfl)

theorem process_adapter_interface_addr (object_path : String)
    (properties : List (String × Variant)) (s : HalState)
    (hinv : s.active_adapter_found = true → s.active_adapter.address ≠ "") :
    (process_adapter_interface object_path properties s).1.active_adapter_found = true →
    (process_adapter_interface object_path properties s).1.active_adapter.address ≠ "" := by
  unfold process_adapter_interface
  split
  · exact hinv
  · dsimp only
    split
    · split
      · intro _
        exact length_pos_ne_empty _ (by assumption)
      · intro _
        exact length_pos_ne_empty _ (by assumption)
    · exact hinv

theorem processAddedInterfaces_addr (object_path : String)
    (ifaces : List (String × List (String × Variant))) (s : HalState)
    (hinv : s.active_adapter_found = true → s.active_adapter.address ≠ "") :
    (processAddedInterfaces object_path ifaces s).1.active_adapter_found = true →
    (processAddedInterfaces object_path ifaces s).1.active_adapter.address ≠ "" := by
  induction ifaces generalizing s with
  | nil => exact hinv
  | cons hd tl ih =>
      obtain ⟨iname, props⟩ := hd
      simp only [processAddedInterfaces]
      split
      · split
        · exact ih _ (process_adapter_interface_addr _ _ _ hinv)
        · exact ih _ hinv
      · exact ih _ hinv

theorem processEnumIfaces_addr (object_path : String)
    (ifaces : List (String × List (String × Variant))) (s : HalState)
    (hinv : s.active_adapter_found = true → s.active_adapter.address ≠ "") :
    (processEnumIfaces object_path ifaces s).1.active_adapter_found = true →
    (processEnumIfaces object_path ifaces s).1.active_adapter.address ≠ "" := by
  induction ifaces generalizing s with
  | nil => exact hinv
  | cons hd tl ih =>
      obtain ⟨iname, props⟩ := hd
      simp only [processEnumIfaces]
      split
      · split
        · exact ih _ (process_adapter_interface_addr _ _ _ hinv)
        · exact ih _ hinv
      · exact ih _ hinv

theorem processManagedObjects_addr
    (objects : List (String × List (String × List (String × Variant))))
    (s : HalState)
    (hinv : s.active_adapter_found = true → s.active_adapter.address ≠ "") :
    (processManagedObjects objects s).1.active_adapter_found = true →
    (processManagedObjects objects s).1.active_adapter.address ≠ "" := by
  induction objects generalizing s with
  | nil => exact hinv
  | cons hd tl ih =>
      obtain ⟨opath, ifaces⟩ := hd
      simp only [processManagedObjects]
      exact ih _ (processEnumIfaces_addr _ _ _ hinv)

theorem processRemovedInterfaces_addr (s : HalState) (removed : List String)
    (hinv : s.active_adapter_found = true → s.active_adapter.address ≠ "") :
    (processRemovedInterfaces s removed).1.active_adapter_found = true →
    (processRemovedInterfaces s removed).1.active_adapter.address ≠ "" := by
  induction removed with
  | nil => exact hinv
  | cons hd tl ih =>
      simp only [processRemovedInterfaces]
      split
      · simp
      · exact ih

theorem handleBusEvent_addr (e : BusEvent) (s : HalState)
    (hinv : s.active_adapter_found = true → s.active_adapter.address ≠ "") :
    (handleBusEvent e s).1.active_adapter_found = true →
    (handleBusEvent e s).1.active_adapter.address ≠ "" := by
  cases e with
  | signal sender params =>
      cases params with
      | interfacesAdded opath ifaces =>
          have hdef : handleBusEvent
              (BusEvent.signal sender (SignalParams.interfacesAdded opath ifaces)) s
              = on_object_manager_signal sender (SignalParams.interfacesAdded opath ifaces) s :=
            rfl
          rw [hdef, on_object_manager_signal]
          split
          · exact processAddedInterfaces_addr _ _ _ hinv
          · exact hinv
      | interfacesRemoved opath removed =>
          have hdef : handleBusEvent
              (BusEvent.signal sender (SignalParams.interfacesRemoved opath removed)) s
              = on_object_manager_signal sender (SignalParams.interfacesRemoved opath removed) s :=
            rfl
          rw [hdef, on_object_manager_signal]
          split
          · split
            · exact processRemovedInterfaces_addr _ _ hinv
            · exact hinv
          · exact hinv
  | enumReply result =>
      cases result with
      | none => exact hinv
      | some objects =>
          have hdef : handleBusEvent (BusEvent.enumReply (some objects)) s
              = processManagedObjects objects s := rfl
          rw [hdef]
          exact processManagedObjects_addr _ _ hinv

/-- C2: any adapter held by the registry has a non-empty address — the
invariant is preserved by every bus delivery (signal or enumeration reply) —
and a payload whose decoded `Address` is empty is discarded, leaving the
registry (indeed the whole state) unchanged. -/
theorem C2_address_nonempty :
    (∀ (s : HalState) (e : BusEvent),
      (s.active_adapter_found = true → s.active_adapter.address ≠ "") →
      (handleBusEvent e s).1.active_adapter_found = true →
      (handleBusEvent e s).1.active_adapter.address ≠ "") ∧
    (∀ (s : HalState) (object_path : String) (properties : List (String × Variant)),
      (decodeAdapterProps { emptyAdapterInfo with path := truncStr 255 object_path }
          properties).address = "" →
      (process_adapter_interface object_path properties s).1 = s) := by
  constructor
  · exact fun s e hinv => handleBusEvent_addr e s hinv
  · intro s object_path properties hempty
    unfold process_adapter_interface
    split
    · rfl
    · dsimp only
      split
      · rename_i hlen
        rw [hempty] at hlen
        exact absurd hlen (by decide)
      · rfl

/-- Witness for C2: registering `addedHci1` from the empty registry yields a
non-empty address, and a payload carrying only a `Name` leaves the state
unchanged. -/
theorem C2_address_nonempty_witness :
    ((handleBusEvent addedHci1 sReady).1.active_adapter.address ≠ "") ∧
    (process_adapter_interface "/org/bluez/hci2" [("Name", Variant.str "x")] sActive).1
      = sActive :=
  ⟨C2_address_nonempty.1 sReady addedHci1 (by decide) (by decide),
   C2_address_nonempty.2 sActive "/org/bluez/hci2" [("Name", Variant.str "x")] (by decide)⟩

/-- C3 counterexample: with the HAL initialized and connected, a call with an
empty (non-NULL) adapter path is not rejected synchronously — no callback is
invoked before return, the status is `pending`, and a bus call is issued —
contradicting the claim that an empty path is rejected with the callback
invoked once before return and no bus call. -/
theorem C3_counterexample :
    ((ble_hal_set_adapter_power (some "") true true 3 sReady).2 ≠
      [Action.invokeCallback (ble_hal_set_adapter_power (some "") true true 3 sReady).1 3]) ∧
    (ble_hal_set_adapter_power (some "") true true 3 sReady).1 = BleHalStatus.pending ∧
    (ble_hal_set_adapter_power (some "") true true 3 sReady).2 =
      [Action.busCallSetProperty "" "org.bluez.Adapter1" "Powered" true] := by
  decide

/-- C3 (amended): `ble_hal_set_adapter_power` is rejected synchronously — the
callback is invoked exactly once with the error status before the function
returns, and no bus call is issued — whenever the HAL is not initialized, the
connection is unavailable, or the adapter path is absent (NULL); an empty but
non-NULL path is NOT rejected.  A call before init returns
`error_not_initialized` and the callback receives `error_not_initialized`. -/
theorem C3_synchronous_rejection (s : HalState) (adapter_path : Option String)
    (power_on : Bool) (user_data : Nat)
    (h : s.hal_initialized = false ∨ s.dbus_conn = false ∨ adapter_path = none) :
    ((ble_hal_set_adapter_power adapter_path power_on true user_data s).1 =
        BleHalStatus.error_not_initialized ∨
      (ble_hal_set_adapter_power adapter_path power_on true user_data s).1 =
        BleHalStatus.error_invalid_params) ∧
    (ble_hal_set_adapter_power adapter_path power_on true user_data s).2 =
      [Action.invokeCallback
        (ble_hal_set_adapter_power adapter_path power_on true user_data s).1 user_data] ∧
    (s.hal_initialized = false →
      (ble_hal_set_adapter_power adapter_path power_on true user_data s).1 =
        BleHalStatus.error_not_initialized) := by
  by_cases hc : s.hal_initialized = false ∨ s.dbus_conn = false
  · simp [ble_hal_set_adapter_power, hc]
  · rcases h with h | h | h
    · exact absurd (Or.inl h) hc
    · exact absurd (Or.inr h) hc
    · subst h
      refine ⟨?_, ?_, ?_⟩
      · exact Or.inr (by simp [ble_hal_set_adapter_power, hc])
      · simp [ble_hal_set_adapter_power, hc]
      · intro hfalse
        exact absurd (Or.inl hfalse) hc

/-- Witness for C3 (amended): a call before any init is rejected with
`error_not_initialized`, the callback fires exactly once with that status, and
no bus call appears in the trace. -/
theorem C3_synchronous_rejection_witness :
    ((ble_hal_set_adapter_power (some "/org/bluez/hci0") true true 4 initialHalState).1 =
        BleHalStatus.error_not_initialized ∨
      (ble_hal_set_adapter_power (some "/org/bluez/hci0") true true 4 initialHalState).1 =
        BleHalStatus.error_invalid_params) ∧
    (ble_hal_set_adapter_power (some "/org/bluez/hci0") true true 4 initialHalState).2 =
      [Action.invokeCallback
        (ble_hal_set_adapter_power (some "/org/bluez/hci0") true true 4 initialHalState).1 4] ∧
    (initialHalState.hal_initialized = false →
      (ble_hal_set_adapter_power (some "/org/bluez/hci0") true true 4 initialHalState).1 =
        BleHalStatus.error_not_initialized) :=
  C3_synchronous_rejection initialHalState (some "/org/bluez/hci0") true 4
    (Or.inl (by decide))

/-- Adapter property payload with a valid address and `Powered = false`. -/
def propsUnpowered : List (String × Variant) :=
  [("Address", Variant.str "11:22:33:44:55:66"), ("Powered", Variant.boolean false)]

/-- Adapter property payload with a valid address and `Powered = true`. -/
def propsPowered : List (String × Variant) :=
  [("Address", Variant.str "AA:BB:CC:DD:EE:FF"), ("Powered", Variant.boolean true)]

/-- C4: when a candidate adapter is registered as active (HAL initialized,
connection up, registry empty, decoded address non-empty), exactly one
power-on bus request is issued for its (truncated) object path if it was
registered with `powered = false`, and no request is issued if it was
registered with `powered = true`. -/
theorem C4_auto_power_on (s : HalState) (object_path : String)
    (properties : List (String × Variant))
    (hinit : s.hal_initialized = true) (hconn : s.dbus_conn = true)
    (hfree : s.active_adapter_found = false)
    (haddr : 0 < (decodeAdapterProps
        { emptyAdapterInfo with path := truncStr 255 object_path }
        properties).address.length) :
    ((decodeAdapterProps { emptyAdapterInfo with path := truncStr 255 object_path }
        properties).powered = false →
      (process_adapter_interface object_path properties s).2 =
        [Action.busCallSetProperty
          (decodeAdapterProps { emptyAdapterInfo with path := truncStr 255 object_path }
            properties).path
          "org.bluez.Adapter1" "Powered" true]) ∧
    ((decodeAdapterProps { emptyAdapterInfo with path := truncStr 255 object_path }
        properties).powered = true →
      (process_adapter_interface object_path properties s).2 = []) := by
  constructor
  · intro hp
    simp [process_adapter_interface, ble_hal_set_adapter_power, hfree, hinit, hconn, haddr, hp]
  · intro hp
    simp [process_adapter_interface, hfree, haddr, hp]

/-- Witness for C4: from the ready state, an unpowered adapter payload
produces exactly one power-on request for its path, and a powered one produces
none. -/
theorem C4_auto_power_on_witness :
    (process_adapter_interface "/org/bluez/hci1" propsUnpowered sReady).2 =
      [Action.busCallSetProperty "/org/bluez/hci1" "org.bluez.Adapter1" "Powered" true] ∧
    (process_adapter_interface "/org/bluez/hci0" propsPowered sReady).2 = [] :=
  ⟨(C4_auto_power_on sReady "/org/bluez/hci1" propsUnpowered
      (by decide) (by decide) (by decide) (by decide)).1 (by decide),
   (C4_auto_power_on sReady "/org/bluez/hci0" propsPowered
      (by decide) (by decide) (by decide) (by decide)).2 (by decide)⟩

/-- C5: on a service-name-appeared notification (with the connection held, as
is the case whenever the name watch is active), the handler's trace is, in
order: release of the previously held subscription handle (when one was held),
the unconditional registry clear, the subscription attempt, the one-shot
enumeration exactly when the subscription succeeded, and finally the
`ServiceUp` event (when a callback is configured) — after the subscription was
attempted.  The resulting state has an empty registry and stores the new
subscription handle. -/
theorem C5_appeared_ordering (s : HalState) (new_watch_id : Nat)
    (hconn : s.dbus_conn = true) :
    (on_bluez_appeared new_watch_id s).2 =
      (if 0 < s.object_manager_signal_watch_id
        then [Action.unsubscribeSignals s.object_manager_signal_watch_id] else []) ++
      [Action.clearRegistry, Action.subscribeSignals] ++
      (if new_watch_id = 0 then [] else [Action.busCallGetManagedObjects]) ++
      (if s.hal_global_config.global_event_cb
        then [Action.raiseEvent true s.hal_global_config.global_event_user_data] else []) ∧
    (on_bluez_appeared new_watch_id s).1.active_adapter_found = false ∧
    (on_bluez_appeared new_watch_id s).1.object_manager_signal_watch_id = new_watch_id := by
  unfold on_bluez_appeared initial_object_scan
  by_cases hw : 0 < s.object_manager_signal_watch_id
  · by_cases hid : new_watch_id = 0 <;> simp [hw, hconn, hid]
  · by_cases hid : new_watch_id = 0 <;> simp [hw, hconn, hid]

/-- Witness for C5: from the active state (held subscription 2, callback
registered), a successful re-subscription with handle 7 yields exactly
unsubscribe-clear-subscribe-enumerate-event, an empty registry, and the new
handle. -/
theorem C5_appeared_ordering_witness :
    (on_bluez_appeared 7 sActive).2 =
      [Action.unsubscribeSignals 2, Action.clearRegistry, Action.subscribeSignals,
        Action.busCallGetManagedObjects, Action.raiseEvent true 5] ∧
    (on_bluez_appeared 7 sActive).1.active_adapter_found = false ∧
    (on_bluez_appeared 7 sActive).1.object_manager_signal_watch_id = 7 :=
  C5_appeared_ordering sActive 7 (by decide)

theorem processRemovedInterfaces_mem (s : HalState) (removed : List String)
    (hmem : "org.bluez.Adapter1" ∈ removed) :
    processRemovedInterfaces s removed =
      ({ s with active_adapter_found := false, active_adapter := emptyAdapterInfo },
        [Action.clearRegistry]) := by
  induction removed with
  | nil => cases hmem
  | cons hd tl ih =>
      by_cases h : hd = "org.bluez.Adapter1"
      · simp [processRemovedInterfaces, h]
      · have htl : "org.bluez.Adapter1" ∈ tl := by
          rcases List.mem_cons.mp hmem with heq | htl
          · exact absurd heq.symm h
          · exact htl
        rw [processRemovedInterfaces, if_neg h]
        exact ih htl

theorem on_bluez_vanished_clears (t : HalState) :
    (on_bluez_vanished t).1.active_adapter_found = false := by
  unfold on_bluez_vanished
  dsimp only
  split
  · split
    · rfl
    · rename_i h
      simpa using h
  · split
    · rfl
    · rename_i h
      simpa using h

theorem process_adapter_interface_registers (object_path : String)
    (properties : List (String × Variant)) (s : HalState)
    (hfree : s.active_adapter_found = false)
    (haddr : 0 < (decodeAdapterProps
        { emptyAdapterInfo with path := truncStr 255 object_path }
        properties).address.length) :
    (process_adapter_interface object_path properties s).1 =
      { s with
        active_adapter := decodeAdapterProps
          { emptyAdapterInfo with path := truncStr 255 object_path } properties
        active_adapter_found := true } := by
  unfold process_adapter_interface
  rw [if_neg (by simp [hfree])]
  dsimp only
  rw [if_pos haddr]
  split
  · rfl
  · rfl

/-- C6: (1) a service-down notification always empties the registry, even for
a state `t` in which no adapter was ever registered; (2) an
`InterfacesRemoved` notification for the active adapter's path whose removed
list contains `org.bluez.Adapter1` empties the registry; and (3) after that
clear, a later `InterfacesAdded` for the same path with a qualifying payload
registers that adapter again as the new active adapter. -/
theorem C6_clear_then_reregister (s t : HalState) (object_path : String)
    (removed : List String) (properties : List (String × Variant))
    (hf : s.active_adapter_found = true)
    (hpath : object_path = s.active_adapter.path)
    (hmem : "org.bluez.Adapter1" ∈ removed)
    (haddr : 0 < (decodeAdapterProps
        { emptyAdapterInfo with path := truncStr 255 object_path }
        properties).address.length) :
    ((on_bluez_vanished t).1.active_adapter_found = false) ∧
    ((on_object_manager_signal "org.bluez"
        (.interfacesRemoved object_path removed) s).1.active_adapter_found = false) ∧
    ((on_object_manager_signal "org.bluez"
        (.interfacesAdded object_path [("org.bluez.Adapter1", properties)])
        (on_object_manager_signal "org.bluez"
          (.interfacesRemoved object_path removed) s).1).1.active_adapter_found = true) ∧
    ((on_object_manager_signal "org.bluez"
        (.interfacesAdded object_path [("org.bluez.Adapter1", properties)])
        (on_object_manager_signal "org.bluez"
          (.interfacesRemoved object_path removed) s).1).1.active_adapter =
      decodeAdapterProps
        { emptyAdapterInfo with path := truncStr 255 object_path } properties) := by
  have hsig : on_object_manager_signal "org.bluez"
      (.interfacesRemoved object_path removed) s =
      ({ s with active_adapter_found := false, active_adapter := emptyAdapterInfo },
        [Action.clearRegistry]) := by
    rw [on_object_manager_signal]
    rw [if_pos rfl, if_pos ⟨hf, hpath⟩]
    exact processRemovedInterfaces_mem s removed hmem
  have hreg := process_adapter_interface_registers object_path properties
    { s with active_adapter_found := false, active_adapter := emptyAdapterInfo }
    (by simp) haddr
  refine ⟨on_bluez_vanished_clears t, by rw [hsig], ?_, ?_⟩
  · rw [hsig]
    dsimp only
    rw [on_object_manager_signal, if_pos rfl]
    simp [processAddedInterfaces, hreg]
  · rw [hsig]
    dsimp only
    rw [on_object_manager_signal, if_pos rfl]
    simp [processAddedInterfaces, hreg]

/-- Witness for C6: with `adapterA` active, removing `org.bluez.Adapter1` at
its path empties the registry (as does a service-down on the never-registered
ready state), and a later add for the same path registers it anew. -/
theorem C6_clear_then_reregister_witness :
    ((on_bluez_vanished sReady).1.active_adapter_found = false) ∧
    ((on_object_manager_signal "org.bluez"
        (.interfacesRemoved "/org/bluez/hci0" ["org.bluez.Adapter1"])
        sActive).1.active_adapter_found = false) ∧
    ((on_object_manager_signal "org.bluez"
        (.interfacesAdded "/org/bluez/hci0" [("org.bluez.Adapter1", propsPowered)])
        (on_object_manager_signal "org.bluez"
          (.interfacesRemoved "/org/bluez/hci0" ["org.bluez.Adapter1"])
          sActive).1).1.active_adapter_found = true) ∧
    ((on_object_manager_signal "org.bluez"
        (.interfacesAdded "/org/bluez/hci0" [("org.bluez.Adapter1", propsPowered)])
        (on_object_manager_signal "org.bluez"
          (.interfacesRemoved "/org/bluez/hci0" ["org.bluez.Adapter1"])
          sActive).1).1.active_adapter =
      decodeAdapterProps
        { emptyAdapterInfo with path := truncStr 255 "/org/bluez/hci0" } propsPowered) :=
  C6_clear_then_reregister sActive sReady "/org/bluez/hci0" ["org.bluez.Adapter1"]
    propsPowered (by decide) (by decide) (by decide) (by decide)

theorem ble_hal_init_of_initialized (config : Option BleHalConfig) (loop : Bool)
    (env : InitEnv) (s : HalState) (h : s.hal_initialized = true) :
    ble_hal_init config loop env s = (.success, s) := by
  unfold ble_hal_init
  rw [if_pos h]

theorem init_result_initialized (config : Option BleHalConfig) (loop : Bool)
    (env : InitEnv) (s : HalState)
    (h : (ble_hal_init config loop env s).1 = BleHalStatus.success) :
    (ble_hal_init config loop env s).2.hal_initialized = true := by
  by_cases hinit : s.hal_initialized = true
  · rw [ble_hal_init_of_initialized config loop env s hinit]
    exact hinit
  · have hni : s.hal_initialized = false := by simpa using hinit
    cases config with
    | none => simp [ble_hal_init, hni] at h
    | some cfg =>
        by_cases hbus : env.bus_ok = false
        · simp [ble_hal_init, hni, hbus] at h
        · by_cases hwid : env.name_watch_id = 0
          · simp [ble_hal_init, hni, hbus, hwid] at h
          · simp [ble_hal_init, hni, hbus, hwid]

/-- A non-trivial configuration used by witnesses. -/
def cfgA : BleHalConfig := { global_event_cb := true, global_event_user_data := 5 }

/-- C7: if a call to `ble_hal_init` returned success, a second call — with any
configuration, loop argument and environment, and no intervening deinit —
returns success and leaves the entire global state exactly as the first call
left it. -/
theorem C7_init_idempotent (config config2 : Option BleHalConfig)
    (loop loop2 : Bool) (env env2 : InitEnv) (s : HalState)
    (h : (ble_hal_init config loop env s).1 = BleHalStatus.success) :
    ble_hal_init config2 loop2 env2 (ble_hal_init config loop env s).2 =
      (BleHalStatus.success, (ble_hal_init config loop env s).2) :=
  ble_hal_init_of_initialized config2 loop2 env2 _
    (init_result_initialized config loop env s h)

/-- Witness for C7: after a successful first init, a second init (even with a
different configuration and environment) is a success no-op. -/
theorem C7_init_idempotent_witness :
    ble_hal_init (some zeroConfig) false ⟨false, 0⟩
        (ble_hal_init (some cfgA) true ⟨true, 9⟩ initialHalState).2 =
      (BleHalStatus.success,
        (ble_hal_init (some cfgA) true ⟨true, 9⟩ initialHalState).2) :=
  C7_init_idempotent (some cfgA) (some zeroConfig) true false ⟨true, 9⟩ ⟨false, 0⟩
    initialHalState (by decide)

/-- C8 counterexample: a failed init (bus connection refused) returns the
connection error but does NOT leave all observable state unchanged — the
stored configuration now holds the aborted call's config. -/
theorem C8_counterexample :
    (ble_hal_init (some cfgA) false ⟨false, 0⟩ initialHalState).1 =
      BleHalStatus.error_dbus ∧
    (ble_hal_init (some cfgA) false ⟨false, 0⟩ initialHalState).2 ≠ initialHalState ∧
    (ble_hal_init (some cfgA) false ⟨false, 0⟩ initialHalState).2.hal_global_config =
      cfgA := by
  decide

/-- C8 (amended): if `ble_hal_init` fails from a pre-init state (bus
connection refused, or the name watch cannot be set up), it returns
`error_dbus`, holds no connection, no internal loop and no name watch
afterwards (the failed `g_bus_watch_name` result 0 is written to the global
before the check), and remains not-initialized with the registry untouched;
however the stored configuration is NOT restored — it keeps the value written
by the aborted call. -/
theorem C8_init_failure_cleanup (cfg : BleHalConfig) (loop : Bool) (env : InitEnv)
    (s : HalState) (hni : s.hal_initialized = false)
    (hconn : s.dbus_conn = false) (hloop : s.internal_loop = false)
    (hwid0 : s.bluez_name_watch_id = 0)
    (hfail : env.bus_ok = false ∨ env.name_watch_id = 0) :
    (ble_hal_init (some cfg) loop env s).1 = BleHalStatus.error_dbus ∧
    (ble_hal_init (some cfg) loop env s).2.hal_initialized = false ∧
    (ble_hal_init (some cfg) loop env s).2.dbus_conn = false ∧
    (ble_hal_init (some cfg) loop env s).2.internal_loop = false ∧
    (ble_hal_init (some cfg) loop env s).2.bluez_name_watch_id = 0 ∧
    (ble_hal_init (some cfg) loop env s).2.active_adapter = s.active_adapter ∧
    (ble_hal_init (some cfg) loop env s).2.active_adapter_found =
      s.active_adapter_found ∧
    (ble_hal_init (some cfg) loop env s).2.hal_global_config = cfg := by
  rcases hfail with hbus | hwid
  · simp [ble_hal_init, hni, hbus, hloop, hwid0]
  · by_cases hbus : env.bus_ok = false
    · simp [ble_hal_init, hni, hbus, hloop, hwid0]
    · simp [ble_hal_init, hni, hbus, hwid, apply_ite]

/-- Witness for C8 (amended): a watch-setup failure from the pristine state
cleans up the connection, internal loop and watch id but keeps the written
config. -/
theorem C8_init_failure_cleanup_witness :
    (ble_hal_init (some cfgA) false ⟨true, 0⟩ initialHalState).1 =
      BleHalStatus.error_dbus ∧
    (ble_hal_init (some cfgA) false ⟨true, 0⟩ initialHalState).2.hal_initialized =
      false ∧
    (ble_hal_init (some cfgA) false ⟨true, 0⟩ initialHalState).2.dbus_conn = false ∧
    (ble_hal_init (some cfgA) false ⟨true, 0⟩ initialHalState).2.internal_loop =
      false ∧
    (ble_hal_init (some cfgA) false ⟨true, 0⟩ initialHalState).2.bluez_name_watch_id =
      0 ∧
    (ble_hal_init (some cfgA) false ⟨true, 0⟩ initialHalState).2.active_adapter =
      initialHalState.active_adapter ∧
    (ble_hal_init (some cfgA) false ⟨true, 0⟩ initialHalState).2.active_adapter_found =
      initialHalState.active_adapter_found ∧
    (ble_hal_init (some cfgA) false ⟨true, 0⟩ initialHalState).2.hal_global_config =
      cfgA :=
  C8_init_failure_cleanup cfgA false ⟨true, 0⟩ initialHalState
    (by decide) (by decide) (by decide) (by decide) (Or.inr (by decide))

/-- A property entry the decoder recognises: a known name with the expected
variant type (`Address`/`Name` as strings, `Powered` as boolean). -/
def recognizedAdapterProp : String → Variant → Bool
  | "Address", .str _ => true
  | "Name", .str _ => true
  | "Powered", .boolean _ => true
  | _, _ => false

theorem applyAdapterProp_unrecognized (info : BleHalAdapterInfo) (n : String)
    (v : Variant) (h : recognizedAdapterProp n v = false) :
    applyAdapterProp info n v = info := by
  unfold applyAdapterProp
  split
  · simp [recognizedAdapterProp] at h
  · simp [recognizedAdapterProp] at h
  · simp [recognizedAdapterProp] at h
  · rfl

theorem applyAdapterProp_path (info : BleHalAdapterInfo) (n : String) (v : Variant) :
    (applyAdapterProp info n v).path = info.path := by
  unfold applyAdapterProp
  split <;> rfl

theorem applyAdapterProp_address_le (info : BleHalAdapterInfo) (n : String)
    (v : Variant) (ha : info.address.length ≤ 17) :
    (applyAdapterProp info n v).address.length ≤ 17 := by
  unfold applyAdapterProp
  split
  · exact truncStr_length_le 17 _
  · exact ha
  · exact ha
  · exact ha

theorem applyAdapterProp_name_le (info : BleHalAdapterInfo) (n : String)
    (v : Variant) (hn : info.name.length ≤ 248) :
    (applyAdapterProp info n v).name.length ≤ 248 := by
  unfold applyAdapterProp
  split
  · exact hn
  · exact truncStr_length_le 248 _
  · exact hn
  · exact hn

theorem decodeAdapterProps_bounds (info : BleHalAdapterInfo)
    (properties : List (String × Variant))
    (hp : info.path.length ≤ 255) (ha : info.address.length ≤ 17)
    (hn : info.name.length ≤ 248) :
    (decodeAdapterProps info properties).path.length ≤ 255 ∧
    (decodeAdapterProps info properties).address.length ≤ 17 ∧
    (decodeAdapterProps info properties).name.length ≤ 248 := by
  induction properties generalizing info with
  | nil => exact ⟨hp, ha, hn⟩
  | cons hd tl ih =>
      obtain ⟨n, v⟩ := hd
      have hstep : decodeAdapterProps info ((n, v) :: tl)
          = decodeAdapterProps (applyAdapterProp info n v) tl := rfl
      rw [hstep]
      exact ih _ (by rw [applyAdapterProp_path]; exact hp)
        (applyAdapterProp_address_le info n v ha)
        (applyAdapterProp_name_le info n v hn)

/-- C9: the decoder (1) keeps every decoded record's `path`, `address` and
`name` within the record's fixed buffer bounds (255, 17 and 248 characters
plus a NUL) by truncating over-length input rather than failing; (2) ignores
a property entry with an unknown name or an unexpected variant type wherever
it occurs in the payload; (3,4) skips non-adapter interfaces in both the
signal path and the enumeration path; and (5) stores the truncation of
over-length `Address`/`Name` strings and of the object path. -/
theorem C9_decoder_tolerance :
    (∀ (object_path : String) (properties : List (String × Variant)),
      (decodeAdapterProps { emptyAdapterInfo with path := truncStr 255 object_path }
          properties).path.length ≤ 255 ∧
      (decodeAdapterProps { emptyAdapterInfo with path := truncStr 255 object_path }
          properties).address.length ≤ 17 ∧
      (decodeAdapterProps { emptyAdapterInfo with path := truncStr 255 object_path }
          properties).name.length ≤ 248) ∧
    (∀ (info : BleHalAdapterInfo) (l1 l2 : List (String × Variant))
        (n : String) (v : Variant), recognizedAdapterProp n v = false →
      decodeAdapterProps info (l1 ++ (n, v) :: l2) = decodeAdapterProps info (l1 ++ l2)) ∧
    (∀ (s : HalState) (object_path iname : String)
        (props : List (String × Variant)) (rest : List (String × List (String × Variant))),
      iname ≠ "org.bluez.Adapter1" →
      processAddedInterfaces object_path ((iname, props) :: rest) s =
        processAddedInterfaces object_path rest s) ∧
    (∀ (s : HalState) (object_path iname : String)
        (props : List (String × Variant)) (rest : List (String × List (String × Variant))),
      iname ≠ "org.bluez.Adapter1" →
      processEnumIfaces object_path ((iname, props) :: rest) s =
        processEnumIfaces object_path rest s) ∧
    (∀ (object_path a nm : String),
      decodeAdapterProps { emptyAdapterInfo with path := truncStr 255 object_path }
          [("Address", Variant.str a), ("Name", Variant.str nm)] =
        { path := truncStr 255 object_path, address := truncStr 17 a,
          name := truncStr 248 nm, powered := false }) := by
  refine ⟨?_, ?_, ?_, ?_, ?_⟩
  · intro object_path properties
    exact decodeAdapterProps_bounds _ properties (truncStr_length_le 255 object_path)
      (by show ("" : String).length ≤ 17; decide)
      (by show ("" : String).length ≤ 248; decide)
  · intro info l1 l2 n v h
    unfold decodeAdapterProps
    rw [List.foldl_append, List.foldl_append, List.foldl_cons]
    dsimp only
    rw [applyAdapterProp_unrecognized _ n v h]
  · intro s object_path iname props rest h
    rw [processAddedInterfaces, if_neg h]
    dsimp only
    simp
  · intro s object_path iname props rest h
    rw [processEnumIfaces, if_neg h]
    dsimp only
    simp
  · intro object_path a nm
    rfl

/-- Witness for C9: bounds on a concrete over-length payload; a bogus
property and a type-mismatched `Address` are ignored; a `org.bluez.Device1`
entry is skipped on both paths; over-length strings are stored truncated. -/
theorem C9_decoder_tolerance_witness :
    ((decodeAdapterProps { emptyAdapterInfo with path := truncStr 255 "/org/bluez/hci0" }
        propsPowered).path.length ≤ 255 ∧
      (decodeAdapterProps { emptyAdapterInfo with path := truncStr 255 "/org/bluez/hci0" }
        propsPowered).address.length ≤ 17 ∧
      (decodeAdapterProps { emptyAdapterInfo with path := truncStr 255 "/org/bluez/hci0" }
        propsPowered).name.length ≤ 248) ∧
    (decodeAdapterProps emptyAdapterInfo
        ([("Powered", Variant.boolean true)] ++ ("Address", Variant.boolean true) ::
          [("Name", Variant.str "x")]) =
      decodeAdapterProps emptyAdapterInfo
        ([("Powered", Variant.boolean true)] ++ [("Name", Variant.str "x")])) ∧
    (processAddedInterfaces "/org/bluez/hci0"
        [("org.bluez.Device1", propsPowered)] sReady =
      processAddedInterfaces "/org/bluez/hci0" [] sReady) ∧
    (processEnumIfaces "/org/bluez/hci0"
        [("org.bluez.Device1", propsPowered)] sReady =
      processEnumIfaces "/org/bluez/hci0" [] sReady) ∧
    (decodeAdapterProps { emptyAdapterInfo with path := truncStr 255 "/p" }
        [("Address", Variant.str "AA:BB:CC:DD:EE:FF:TOO:LONG"),
          ("Name", Variant.str "n")] =
      { path := truncStr 255 "/p", address := truncStr 17 "AA:BB:CC:DD:EE:FF:TOO:LONG",
        name := truncStr 248 "n", powered := false }) :=
  ⟨C9_decoder_tolerance.1 "/org/bluez/hci0" propsPowered,
   C9_decoder_tolerance.2.1 emptyAdapterInfo [("Powered", Variant.boolean true)]
     [("Name", Variant.str "x")] "Address" (Variant.boolean true) (by decide),
   C9_decoder_tolerance.2.2.1 sReady "/org/bluez/hci0" "org.bluez.Device1"
     propsPowered [] (by decide),
   C9_decoder_tolerance.2.2.2.1 sReady "/org/bluez/hci0" "org.bluez.Device1"
     propsPowered [] (by decide),
   C9_decoder_tolerance.2.2.2.2 "/p" "AA:BB:CC:DD:EE:FF:TOO:LONG" "n"⟩

/-- C10: `ble_hal_init` returns success on an already-initialized HAL before
validating its arguments: a NULL config, which a first init rejects with
`error_invalid_params`, is accepted when already initialized, and the whole
state — in particular the previously stored configuration — is unchanged. -/
theorem C10_second_init_null_config (s s2 : HalState) (loop loop2 : Bool)
    (env env2 : InitEnv) (h : s.hal_initialized = true)
    (h2 : s2.hal_initialized = false) :
    ble_hal_init none loop env s = (BleHalStatus.success, s) ∧
    ble_hal_init none loop2 env2 s2 = (BleHalStatus.error_invalid_params, s2) := by
  constructor
  · exact ble_hal_init_of_initialized none loop env s h
  · simp [ble_hal_init, h2]

/-- Witness for C10: a NULL-config init succeeds without touching state on the
initialized `sActive`, and is rejected with `error_invalid_params` on the
pristine state. -/
theorem C10_second_init_null_config_witness :
    ble_hal_init none true ⟨true, 3⟩ sActive = (BleHalStatus.success, sActive) ∧
    ble_hal_init none false ⟨true, 3⟩ initialHalState =
      (BleHalStatus.error_invalid_params, initialHalState) :=
  C10_second_init_null_config sActive initialHalState true false ⟨true, 3⟩ ⟨true, 3⟩
    (by decide) (by decide)

end BleHal
